import Mathlib

/-!
Verification development for the PyLink/PyLav protocol client.

This file shallowly embeds, in Lean 4, the parts of the repository that the
checked properties are about:

* the binary track codec (`pylav/players/tracks/decoder.py` together with the
  vendored reader/writer `pylav/utils/vendored/lavalink_py/datarw.py`),
* the query classifier (`pylav/query.py`),
* the per-node websocket connection machine, its outbound queue, its frame
  dispatcher and the per-guild reconnect probes (`pylav/websocket.py`).

Python byte strings are modelled as `List Nat` (each element a byte value);
Python text strings that can carry lone surrogates (the output of the
modified-UTF8 reader) are modelled as `List Nat` of code points, while plain
ASCII-ish strings (queries, op tags) are Lean `String`s.  Fallible Python code
(raising exceptions) is modelled with `Except PyErr`.
-/

namespace PyLav

/-- The Python exception classes that the embedded code can raise. -/
inductive PyErr where
  | binasciiError
  | structError
  | unicodeDecodeError
  | utfDataFormatError
  | indexError
  | attributeError
  | overflowError
  | valueError
deriving DecidableEq, Repr

deriving instance DecidableEq for Except

/-! ## base64 (Python `base64.b64decode`, used by `DataReader.__init__`)

`DataReader.__init__` does `BytesIO(b64decode(ts))`.  `b64decode` is the
standard-alphabet base64 decoder of the Python standard library: characters
outside the alphabet and `=` are discarded, and the remaining text must be a
sequence of 4-character groups, the last of which may end in `=` padding;
otherwise `binascii.Error` is raised (CPython tolerates a few more exotic
padding forms, none of which occur in valid track payloads). -/

def b64Val (c : Char) : Option Nat :=
  if 'A' ≤ c ∧ c ≤ 'Z' then some (c.toNat - 65)
  else if 'a' ≤ c ∧ c ≤ 'z' then some (c.toNat - 97 + 26)
  else if '0' ≤ c ∧ c ≤ '9' then some (c.toNat - 48 + 52)
  else if c = '+' then some 62
  else if c = '/' then some 63
  else none

def b64Quads : List Char → Except PyErr (List Nat)
  | [] => .ok []
  | a :: b :: c :: d :: rest =>
    match b64Val a, b64Val b with
    | some va, some vb =>
      if c = '=' then
        if d = '=' ∧ rest = [] then .ok [va * 4 + vb / 16] else .error .binasciiError
      else
        match b64Val c with
        | some vc =>
          if d = '=' then
            if rest = [] then .ok [va * 4 + vb / 16, vb % 16 * 16 + vc / 4]
            else .error .binasciiError
          else
            match b64Val d with
            | some vd =>
              match b64Quads rest with
              | .ok tail => .ok ((va * 4 + vb / 16) :: (vb % 16 * 16 + vc / 4) :: (vc % 4 * 64 + vd) :: tail)
              | .error e => .error e
            | none => .error .binasciiError
        | none => .error .binasciiError
    | _, _ => .error .binasciiError
  | _ => .error .binasciiError

def b64decode (s : String) : Except PyErr (List Nat) :=
  let kept := s.data.filter (fun c => (b64Val c).isSome || c = '=')
  if kept.length % 4 = 0 then b64Quads kept else .error .binasciiError

/-! ## Strict UTF-8 decoding (Python `bytes.decode()`, used by `DataReader.read_utf`)

Standard strict UTF-8: overlong encodings, surrogates, code points above
`0x10FFFF` and truncated sequences raise `UnicodeDecodeError`.  The result is
the list of decoded code points. -/

def utf8Decode : List Nat → Except PyErr (List Nat)
  | [] => .ok []
  | b :: rest =>
    if b ≤ 0x7F then
      match utf8Decode rest with
      | .ok t => .ok (b :: t)
      | .error e => .error e
    else if b < 0xC2 then .error .unicodeDecodeError
    else if b ≤ 0xDF then
      match rest with
      | b2 :: r2 =>
        if 0x80 ≤ b2 ∧ b2 ≤ 0xBF then
          match utf8Decode r2 with
          | .ok t => .ok (((b - 0xC0) * 64 + (b2 - 0x80)) :: t)
          | .error e => .error e
        else .error .unicodeDecodeError
      | [] => .error .unicodeDecodeError
    else if b ≤ 0xEF then
      match rest with
      | b2 :: b3 :: r3 =>
        if (0x80 ≤ b2 ∧ b2 ≤ 0xBF) ∧ (0x80 ≤ b3 ∧ b3 ≤ 0xBF)
            ∧ (b = 0xE0 → 0xA0 ≤ b2) ∧ (b = 0xED → b2 ≤ 0x9F) then
          match utf8Decode r3 with
          | .ok t => .ok (((b - 0xE0) * 4096 + (b2 - 0x80) * 64 + (b3 - 0x80)) :: t)
          | .error e => .error e
        else .error .unicodeDecodeError
      | _ => .error .unicodeDecodeError
    else if b ≤ 0xF4 then
      match rest with
      | b2 :: b3 :: b4 :: r4 =>
        if (0x80 ≤ b2 ∧ b2 ≤ 0xBF) ∧ (0x80 ≤ b3 ∧ b3 ≤ 0xBF) ∧ (0x80 ≤ b4 ∧ b4 ≤ 0xBF)
            ∧ (b = 0xF0 → 0x90 ≤ b2) ∧ (b = 0xF4 → b2 ≤ 0x8F) then
          match utf8Decode r4 with
          | .ok t =>
            .ok (((b - 0xF0) * 262144 + (b2 - 0x80) * 4096 + (b3 - 0x80) * 64 + (b4 - 0x80)) :: t)
          | .error e => .error e
        else .error .unicodeDecodeError
      | _ => .error .unicodeDecodeError
    else .error .unicodeDecodeError

/-! ## Modified UTF-8 decoding -/

/-- Modelled from the spec: the repository module
`pylav/utils/vendored/lavalink_py/utfm_codec.py` (function `read_utfm`) is not
under `src/`; per the spec (§4.2 and the glossary) it is the classic JVM
modified-UTF8 reader (`DataInput.readUTF` decoding, as used by JVM-based
serialization), bit-for-bit.  This is that algorithm: one loop over byte index
`count < utflen`; a byte with high nibble 0–7 is a one-byte character, high
nibble 12–13 starts a two-byte character, high nibble 14 a three-byte
character, anything else is malformed; continuation bytes must have their top
two bits equal to `10`; running past `utflen` mid-character is malformed.  The
result is the list of produced code points (which may include lone
surrogates).  Indexing past the supplied byte list raises `IndexError` (the
caller may hand the codec fewer than `utflen` bytes when the underlying buffer
is truncated).
The loop advances `count` by at least 1 per iteration, so it runs at most
`utflen` iterations; `fuel` (consumed one unit per iteration, initially
`utflen`) only makes the recursion structural and is never exhausted before
the loop's own exit condition. -/
def utfmGo (utflen : Nat) (bytes : List Nat) : Nat → Nat → Except PyErr (List Nat)
  | _, 0 => .ok []
  | count, fuel + 1 =>
    if count < utflen then
      match bytes.get? count with
      | none => .error .indexError
      | some c =>
        if c / 16 ≤ 7 then
          match utfmGo utflen bytes (count + 1) fuel with
          | .ok t => .ok (c :: t)
          | .error e => .error e
        else if c / 16 = 12 ∨ c / 16 = 13 then
          if utflen < count + 2 then .error .utfDataFormatError
          else
            match bytes.get? (count + 1) with
            | none => .error .indexError
            | some c2 =>
              if c2 / 64 = 2 then
                match utfmGo utflen bytes (count + 2) fuel with
                | .ok t => .ok ((c % 32 * 64 + c2 % 64) :: t)
                | .error e => .error e
              else .error .utfDataFormatError
        else if c / 16 = 14 then
          if utflen < count + 3 then .error .utfDataFormatError
          else
            match bytes.get? (count + 1), bytes.get? (count + 2) with
            | some c2, some c3 =>
              if c2 / 64 = 2 ∧ c3 / 64 = 2 then
                match utfmGo utflen bytes (count + 3) fuel with
                | .ok t => .ok ((c % 16 * 4096 + c2 % 64 * 64 + c3 % 64) :: t)
                | .error e => .error e
              else .error .utfDataFormatError
            | _, _ => .error .indexError
        else .error .utfDataFormatError
    else .ok []

/-- Modelled from the spec (see `utfmGo`): `read_utfm(utf_len, utf_bytes)` of
the absent `utfm_codec.py`. -/
def readUtfmCodec (utflen : Nat) (bytes : List Nat) : Except PyErr (List Nat) :=
  utfmGo utflen bytes 0 utflen

/-! ## `DataReader` (`pylav/utils/vendored/lavalink_py/datarw.py`)

The reader state is the remaining buffer.  `BytesIO.read(count)` returns *up
to* `count` bytes without raising; the `struct.unpack` calls raise
(`struct.error`) when handed too few bytes. -/

namespace DataReader

/-- `self._buf.read(count)`: up to `count` bytes, and the rest of the buffer. -/
def readAvail (buf : List Nat) (count : Nat) : List Nat × List Nat :=
  (buf.take count, buf.drop count)

/-- `read_boolean`: `struct.unpack("B", self.read_byte())`.  Python returns the
raw small integer (annotated as `bool`); it is only ever used as a truth
value, which is what we keep. -/
def read_boolean (buf : List Nat) : Except PyErr (Bool × List Nat) :=
  match readAvail buf 1 with
  | ([b], rest) => .ok (b != 0, rest)
  | _ => .error .structError

/-- Big-endian value of a byte list. -/
def beNat (bs : List Nat) : Nat := bs.foldl (fun acc b => acc * 256 + b) 0

/-- `read_unsigned_short`: `struct.unpack(">H", self._read(2))`. -/
def read_unsigned_short (buf : List Nat) : Except PyErr (Nat × List Nat) :=
  if 2 ≤ buf.length then .ok (beNat (buf.take 2), buf.drop 2) else .error .structError

/-- `read_int`: `struct.unpack(">i", self._read(4))`.  Python reads a signed
32-bit value; its only consumer masks with `0xC0000000` and shifts by 30,
which on the signed value agrees with the same mask-and-shift on the unsigned
big-endian value kept here. -/
def read_int (buf : List Nat) : Except PyErr (Nat × List Nat) :=
  if 4 ≤ buf.length then .ok (beNat (buf.take 4), buf.drop 4) else .error .structError

/-- `read_long`: `struct.unpack(">Q", self._read(8))` (unsigned 64-bit). -/
def read_long (buf : List Nat) : Except PyErr (Nat × List Nat) :=
  if 8 ≤ buf.length then .ok (beNat (buf.take 8), buf.drop 8) else .error .structError

/-- `read_utf`: a 2-byte length, then `self._read(text_length).decode()` —
note `_read` silently returns fewer bytes on a truncated buffer and the
strict UTF-8 decode is applied to whatever was read. -/
def read_utf (buf : List Nat) : Except PyErr (List Nat × List Nat) :=
  match read_unsigned_short buf with
  | .error e => .error e
  | .ok (len, r) =>
    let (bs, r2) := readAvail r len
    match utf8Decode bs with
    | .ok cps => .ok (cps, r2)
    | .error e => .error e

/-- `read_utfm`: a 2-byte length, then `read_utfm(text_length, utf_string)`
from the vendored modified-UTF8 codec. -/
def read_utfm (buf : List Nat) : Except PyErr (List Nat × List Nat) :=
  match read_unsigned_short buf with
  | .error e => .error e
  | .ok (len, r) =>
    let (bs, r2) := readAvail r len
    match readUtfmCodec len bs with
    | .ok cps => .ok (cps, r2)
    | .error e => .error e

/-- `read_nullable_utf`: a 1-byte presence flag, then an optional UTF-8 string. -/
def read_nullable_utf (buf : List Nat) : Except PyErr (Option (List Nat) × List Nat) :=
  match read_boolean buf with
  | .error e => .error e
  | .ok (flag, r) =>
    if flag then
      match read_utf r with
      | .ok (s, r2) => .ok (some s, r2)
      | .error e => .error e
    else .ok (none, r)

/-- `read_nullable_utfm`: a 1-byte presence flag, then an optional
modified-UTF8 string. -/
def read_nullable_utfm (buf : List Nat) : Except PyErr (Option (List Nat) × List Nat) :=
  match read_boolean buf with
  | .error e => .error e
  | .ok (flag, r) =>
    if flag then
      match read_utfm r with
      | .ok (s, r2) => .ok (some s, r2)
      | .error e => .error e
    else .ok (none, r)

end DataReader

/-! ## `DataWriter` (`pylav/utils/vendored/lavalink_py/datarw.py`) -/

structure DataWriter where
  buf : List Nat
deriving DecidableEq, Repr

namespace DataWriter

/-- Standard UTF-8 encoding of one character (`str.encode("utf8")`).  Lean
characters are Unicode scalar values, exactly the Python strings for which
`encode` succeeds. -/
def utf8EncodeChar (c : Char) : List Nat :=
  let n := c.toNat
  if n < 0x80 then [n]
  else if n < 0x800 then [0xC0 + n / 64, 0x80 + n % 64]
  else if n < 0x10000 then [0xE0 + n / 4096, 0x80 + n / 64 % 64, 0x80 + n % 64]
  else [0xF0 + n / 262144, 0x80 + n / 4096 % 64, 0x80 + n / 64 % 64, 0x80 + n % 64]

/-- `utf_string.encode("utf8")`. -/
def utf8Encode (s : String) : List Nat := (s.data.map utf8EncodeChar).flatten

/-- `self._write(data)`. -/
def write (w : DataWriter) (data : List Nat) : DataWriter := { buf := w.buf ++ data }

/-- `write_unsigned_short`: `struct.pack(">H", short)`; every call site has
already bounded `short` by 65535. -/
def write_unsigned_short (w : DataWriter) (short : Nat) : DataWriter :=
  write w [short / 256 % 256, short % 256]

/-- `write_utf`: encode, raise `OverflowError` when the encoding exceeds
65535 bytes (before anything is written), else write the 2-byte big-endian
length then the bytes.  The second component is the raised exception, if any;
the first is the writer state when the call returns or raises. -/
def write_utf (w : DataWriter) (s : String) : DataWriter × Option PyErr :=
  let utf := utf8Encode s
  let byte_len := utf.length
  if 65535 < byte_len then (w, some .overflowError)
  else (write (write_unsigned_short w byte_len) utf, none)

end DataWriter

/-! ## The track decoder (`pylav/players/tracks/decoder.py`) -/

/-- Code points of an ASCII Lean string (for the literal strings the decoder
compares against and interpolates). -/
def strCodes (s : String) : List Nat := s.data.map Char.toNat

structure TrackInfo where
  title : List Nat
  author : List Nat
  length : Nat
  identifier : List Nat
  isStream : Bool
  uri : Option (List Nat)
  isSeekable : Bool
  sourceName : List Nat
  position : Nat
  thumbnail : Option (List Nat)
  isrc : Option (List Nat)
  probeInfo : Option (List Nat)
deriving DecidableEq, Repr

/-- Modelled from the spec: `LavalinkTrackObject` is a response dataclass of
the repository that is not under `src/` (the decoder builds it with
`dacite.from_dict`); per §3 of the spec it carries the encoded wire string
plus the decoded info fields. -/
structure LavalinkTrackObject where
  encoded : String
  info : TrackInfo
deriving DecidableEq, Repr

/-- The fields of decoding steps 1–9 (everything before the `try` block). -/
structure FixedFields where
  title : List Nat
  author : List Nat
  length : Nat
  identifier : List Nat
  isStream : Bool
  uri : Option (List Nat)
  sourceName : List Nat
deriving DecidableEq, Repr

open DataReader in
/-- Steps 1–9 of `decode_track`: flags word (top two bits of the 4-byte
header), optional version byte (consumed, unused), title, author, length,
identifier, isStream, uri, sourceName.  Any failure here propagates (these
reads are outside the `try` block). -/
def decodeFixedFields (bytes : List Nat) : Except PyErr (FixedFields × List Nat) :=
  match read_int bytes with
  | .error e => .error e
  | .ok (flagsWord, r0) =>
    -- flags = (reader.read_int() & 0xC0000000) >> 30
    let flags := flagsWord / 2 ^ 30
    -- version = struct.unpack("B", reader.read_byte()) if flags & 1 != 0 else 1
    -- (the version value itself is never used; the byte is consumed, and
    -- unpacking an empty read raises)
    let step1 : Except PyErr (List Nat) :=
      if flags % 2 = 1 then
        match readAvail r0 1 with
        | ([_], r1) => .ok r1
        | _ => .error .structError
      else .ok r0
    match step1 with
    | .error e => .error e
    | .ok r1 =>
      match read_utfm r1 with
      | .error e => .error e
      | .ok (title, r2) =>
        match read_utfm r2 with
        | .error e => .error e
        | .ok (author, r3) =>
          match read_long r3 with
          | .error e => .error e
          | .ok (length, r4) =>
            match read_utf r4 with
            | .error e => .error e
            | .ok (identifier, r5) =>
              match read_boolean r5 with
              | .error e => .error e
              | .ok (is_stream, r6) =>
                match read_nullable_utf r6 with
                | .error e => .error e
                | .ok (uri, r7) =>
                  match read_utf r7 with
                  | .error e => .error e
                  | .ok (source, r8) =>
                    .ok ({ title := title, author := author, length := length,
                           identifier := identifier, isStream := is_stream,
                           uri := uri, sourceName := source }, r8)

/-- `f"https://img.youtube.com/vi/{identifier}/mqdefault.jpg"`. -/
def youtubeThumb (identifier : List Nat) : List Nat :=
  strCodes "https://img.youtube.com/vi/" ++ identifier ++ strCodes "/mqdefault.jpg"

open DataReader in
/-- Steps 10–11 of `decode_track`: the body of the `try` block.  `thumbnail`,
`isrc` and `probe` start as `None`; the `match source` assigns some of them;
the trailing 8-byte position is read and discarded.  Any exception inside the
block is caught (and logged at debug severity), so this function is total and
returns the values the three variables hold when the block exits or raises —
a read that fails mid-way keeps the assignments already made.  The result is
`(thumbnail, isrc, probe)`. -/
def optionalFields (source identifier : List Nat) (r : List Nat) :
    Option (List Nat) × Option (List Nat) × Option (List Nat) :=
  if source = strCodes "youtube" then
    -- thumbnail is synthesized; the position read afterwards cannot change it
    (some (youtubeThumb identifier), none, none)
  else if source = strCodes "deezer" ∨ source = strCodes "spotify"
      ∨ source = strCodes "applemusic" then
    match read_nullable_utfm r with
    | .error _ => (none, none, none)
    | .ok (isrc, r2) =>
      match read_nullable_utfm r2 with
      | .error _ => (none, isrc, none)
      | .ok (thumb, _) => (thumb, isrc, none)
  else if source = strCodes "yandexmusic" then
    match read_nullable_utfm r with
    | .error _ => (none, none, none)
    | .ok (thumb, _) => (thumb, none, none)
  else if source = strCodes "local" ∨ source = strCodes "http" then
    -- probe info: `probe = reader.read_utfm()` — a plain, non-nullable read
    match read_utfm r with
    | .error _ => (none, none, none)
    | .ok (probe, _) => (none, none, some probe)
  else (none, none, none)

/-- `decode_track(track)`: base64-decode, parse steps 1–9 (fatal on failure),
run the guarded steps 10–11, and build the track object with `position` reset
to 0 and `isSeekable = not is_stream`; `encoded` is the input string itself. -/
def decode_track (track : String) : Except PyErr LavalinkTrackObject :=
  match b64decode track with
  | .error e => .error e
  | .ok bytes =>
    match decodeFixedFields bytes with
    | .error e => .error e
    | .ok (f, r) =>
      let opt := optionalFields f.sourceName f.identifier r
      .ok { encoded := track,
            info := { title := f.title, author := f.author, length := f.length,
                      identifier := f.identifier, isStream := f.isStream,
                      uri := f.uri, isSeekable := !f.isStream,
                      sourceName := f.sourceName, position := 0,
                      thumbnail := opt.1, isrc := opt.2.1, probeInfo := opt.2.2 } }

/-! ## Sample payloads used by witnesses and counterexamples -/

/-- Base64 of a minimal v-default track: empty title/author, length 0,
identifier `"a"`, not a stream, no uri, source `"spotify"`, and *no* bytes
after the fixed fields (the guarded optional reads all fail). -/
def spotifySampleStr : String := "AAAAAAAAAAAAAAAAAAAAAAABYQAAAAdzcG90aWZ5"

def spotifySampleTrack : LavalinkTrackObject :=
  { encoded := spotifySampleStr,
    info := { title := [], author := [], length := 0, identifier := [97],
              isStream := false, uri := none, isSeekable := true,
              sourceName := strCodes "spotify", position := 0,
              thumbnail := none, isrc := none, probeInfo := none } }

/-- Same fixed fields but source `"deezer"`, again truncated right after the
fixed fields. -/
def deezerSampleStr : String := "AAAAAAAAAAAAAAAAAAAAAAABYQAAAAZkZWV6ZXI="

def deezerSampleBytes : List Nat :=
  [0, 0, 0, 0, 0, 0, 0, 0, 0, 0, 0, 0, 0, 0, 0, 0, 0, 1, 97, 0, 0,
   0, 6, 100, 101, 101, 122, 101, 114]

def deezerSampleFixed : FixedFields :=
  { title := [], author := [], length := 0, identifier := [97],
    isStream := false, uri := none, sourceName := strCodes "deezer" }

/-- Source `"http"`, followed by the two bytes `0x00 0x00` and nothing else:
under the claimed nullable encoding this is an absent probe info (presence
flag 0); the code instead reads a length-0 modified-UTF8 string. -/
def httpProbeSampleStr : String := "AAAAAAAAAAAAAAAAAAAAAAABYQAAAARodHRwAAA="

def httpProbeSampleBytes : List Nat :=
  [0, 0, 0, 0, 0, 0, 0, 0, 0, 0, 0, 0, 0, 0, 0, 0, 0, 1, 97, 0, 0,
   0, 4, 104, 116, 116, 112, 0, 0]

def httpProbeSampleFixed : FixedFields :=
  { title := [], author := [], length := 0, identifier := [97],
    isStream := false, uri := none, sourceName := strCodes "http" }

/-- Source `"local"` with probe info `"ab"` (as a plain modified-UTF8 string)
and the trailing 8-byte position. -/
def localProbeSampleStr : String := "AAAAAAAAAAAAAAAAAAAAAAABYQAAAAVsb2NhbAACYWIAAAAAAAAAAA=="

def localProbeSampleBytes : List Nat :=
  [0, 0, 0, 0, 0, 0, 0, 0, 0, 0, 0, 0, 0, 0, 0, 0, 0, 1, 97, 0, 0,
   0, 5, 108, 111, 99, 97, 108, 0, 2, 97, 98, 0, 0, 0, 0, 0, 0, 0, 0]

def localProbeSampleFixed : FixedFields :=
  { title := [], author := [], length := 0, identifier := [97],
    isStream := false, uri := none, sourceName := strCodes "local" }

/-! ## The websocket connection: outbound queue (`pylav/websocket.py`)

For the queueing/flush behaviour only the identity and order of payloads
matter, so a payload is an opaque `Nat`. -/

abbrev Msg := Nat

/-- The connection state relevant to the outbound path: `wsOpen` models
`self._ws is not None and not self._ws.closed`, `ready` models
`self.ready.is_set()`, `messageQueue` is `self._message_queue`, and
`transport` records, in order, every payload actually handed to
`self._ws.send_json` (the wire). -/
structure WSState where
  wsOpen : Bool
  ready : Bool
  manualShutdown : Bool
  messageQueue : List Msg
  transport : List Msg
deriving DecidableEq, Repr

/-- `WebSocket.connected` (websocket.py:183-185): `self._ws is not None and
not self._ws.closed and self.ready.is_set()`. -/
def connected (s : WSState) : Bool := s.wsOpen && s.ready

/-- `WebSocket.send` (websocket.py:588-608): a no-op under manual shutdown;
if `connected`, hand the payload to `send_json` — unless that raises
`ConnectionResetError` (`reset`), in which case append to the queue; if not
connected, append to the queue. -/
def send (s : WSState) (m : Msg) (reset : Bool) : WSState :=
  if s.manualShutdown then s
  else if connected s then
    if reset then { s with messageQueue := s.messageQueue ++ [m] }
    else { s with transport := s.transport ++ [m] }
  else { s with messageQueue := s.messageQueue ++ [m] }

/-- The queue flush in `WebSocket.connect`'s success branch
(websocket.py:305-309): iterate over a *copy* of `self._message_queue`,
`await self.send(**message)` for each entry, then `self._message_queue.clear()`.
No mid-send connection reset can occur here (the socket was just opened and
the read loop has not started), so `send` is called with `reset = false`. -/
def flushQueue (s : WSState) : WSState :=
  let flushed := s.messageQueue.foldl (fun st m => send st m false) s
  { flushed with messageQueue := [] }

/-- The successful-handshake path of `WebSocket.connect`: on entry the
readiness event is cleared (websocket.py:216); on `ws_connect` success the
socket is assigned (websocket.py:259), the node manager is notified
(external), the queue is flushed, and only then does `_listen` start reading
frames — `self.ready` is set later, by `handle_ready`, when the node's
`ready` frame is processed (websocket.py:490). -/
def connectSuccess (s : WSState) : WSState :=
  let s1 := { s with ready := false }
  let s2 := { s1 with wsOpen := true }
  flushQueue s2

/-- `WebSocket.handle_ready` (websocket.py:479-496), restricted to the
outbound-path state: `self.ready.set()`. -/
def wsHandleReady (s : WSState) : WSState := { s with ready := true }

/-! ## The websocket connection: the connect/retry loop (`pylav/websocket.py`)

The loop's environment is the sequence of outcomes the network produces for
the successive connection attempts. -/

/-- What one iteration of the connect loop runs into: the API-version probe
comes back empty (`raise Exception`, websocket.py:248-256), or `ws_connect`
raises one of the three caught aiohttp errors, or it succeeds. -/
inductive AttemptOutcome where
  | apiVersionMissing
  | connectorError
  | handshakeError (status : Nat)
  | serverDisconnected
  | connectionSuccess
deriving DecidableEq, Repr

/-- How `WebSocket.connect` returns. -/
inductive ConnectResult where
  | shuttingDownEarly
  | manualStop
  | authFailure
  | outOfAttempts
  | apiVersionAbort
  | listening
  | envExhausted
deriving DecidableEq, Repr

/-- An outcome the loop handles by sleeping `backoff.delay()` and retrying:
a connector error, a server disconnect, or a handshake error whose status is
neither 401 nor 403. -/
def retryableOutcome : AttemptOutcome → Bool
  | .connectorError => true
  | .serverDisconnected => true
  | .handshakeError st => decide (st ≠ 401 ∧ st ≠ 403)
  | _ => false

/-- The `while` loop of `WebSocket.connect` (websocket.py:236-314), with the
backoff sleep durations abstracted away (no claim concerns their values).
`maxAttempts` is `self._max_reconnect_attempts` (−1 meaning unbounded),
`shuttingDown` is `self.client.is_shutting_down`, `manual` the sticky
`self._manual_shutdown` flag; `attempt` is the loop counter.  `self.connected`
is false at every loop test: it only becomes true once `handle_ready` runs
inside `_listen`, and the success branch returns without re-testing.  Returns
the number of attempts made and how the call ended; `envExhausted` is
reached only when the outcome list is shorter than the number of iterations
the loop wants (theorems supply enough outcomes). -/
def connectLoop (maxAttempts : Int) (shuttingDown manual : Bool) :
    List AttemptOutcome → Nat → Nat × ConnectResult
  | outcomes, attempt =>
    if maxAttempts ≠ -1 ∧ ¬((attempt : Int) < maxAttempts) then (attempt, .outOfAttempts)
    else if manual then (attempt, .manualStop)
    else
      match outcomes with
      | [] => (attempt, .envExhausted)
      | o :: rest =>
        match o with
        | .apiVersionMissing =>
          -- `raise Exception` escapes the loop to the outer handler
          (attempt + 1, .apiVersionAbort)
        | .connectorError =>
          if shuttingDown then (attempt + 1, .shuttingDownEarly)
          else connectLoop maxAttempts shuttingDown manual rest (attempt + 1)
        | .serverDisconnected =>
          if shuttingDown then (attempt + 1, .shuttingDownEarly)
          else connectLoop maxAttempts shuttingDown manual rest (attempt + 1)
        | .handshakeError status =>
          if shuttingDown then (attempt + 1, .shuttingDownEarly)
          else if status = 401 ∨ status = 403 then
            -- "We shouldn't try to establish any more connections …":
            -- `self._connecting = False; return` — no retry, no reschedule
            (attempt + 1, .authFailure)
          else connectLoop maxAttempts shuttingDown manual rest (attempt + 1)
        | .connectionSuccess =>
          -- node_connect, queue flush, `await self._listen()`, `return`
          (attempt + 1, .listening)

/-- `WebSocket.connect` (websocket.py:213-323): the initial
`is_shutting_down` check, then the loop. -/
def connect (maxAttempts : Int) (shuttingDown manual : Bool)
    (outcomes : List AttemptOutcome) : Nat × ConnectResult :=
  if shuttingDown then (0, .shuttingDownEarly)
  else connectLoop maxAttempts shuttingDown manual outcomes 0

/-! ## The websocket connection: per-guild reconnect probes and frame dispatch -/

/-- `self._player_reconnect_tasks` plus the bookkeeping needed to state
liveness: `tasks` is the dict mapping a guild id to the task registered under
it, `created` the history of every probe task ever created (guild, task id),
`cancelled` the ids on which `.cancel()` was called, and `nextId` the next
fresh task id. -/
structure ProbeState where
  tasks : List (Int × Nat)
  created : List (Int × Nat)
  cancelled : List Nat
  nextId : Nat
deriving DecidableEq, Repr

def probeInit : ProbeState := ⟨[], [], [], 0⟩

/-- `self._player_reconnect_tasks[g]`, as an optional association lookup
(insertion-ordered dict with unique keys). -/
def lookupTask : List (Int × Nat) → Int → Option Nat
  | [], _ => none
  | p :: tl, g => if p.1 = g then some p.2 else lookupTask tl g

/-- Dict assignment `self._player_reconnect_tasks[g] = task`: replace the
value under an existing key in place, else append the new binding. -/
def setTask : List (Int × Nat) → Int → Nat → List (Int × Nat)
  | [], g, t => [(g, t)]
  | p :: tl, g, t => if p.1 = g then (g, t) :: tl else p :: setTask tl g t

/-- websocket.py:447-450: if a probe task is registered under the guild id,
cancel it; then create a fresh task (`asyncio.create_task`) and register it
under the guild id. -/
def schedule_probe (st : ProbeState) (g : Int) : ProbeState :=
  let st1 :=
    match lookupTask st.tasks g with
    | some t => { st with cancelled := st.cancelled ++ [t] }
    | none => st
  { st1 with
    tasks := setTask st1.tasks g st1.nextId,
    created := st1.created ++ [(g, st1.nextId)],
    nextId := st1.nextId + 1 }

/-- The probe tasks for guild `g` that were created and never cancelled. -/
def liveProbes (st : ProbeState) (g : Int) : List Nat :=
  (st.created.filter (fun p => p.1 == g && !(st.cancelled.contains p.2))).map Prod.snd

/-- Bookkeeping invariant of the probe registry: created ids are below the
fresh counter and pairwise distinct, the registry only holds created tasks,
and every live (never cancelled) created task is the one registered under its
guild. -/
def ProbeWF (st : ProbeState) : Prop :=
  (∀ p ∈ st.created, p.2 < st.nextId)
  ∧ (st.created.map Prod.snd).Nodup
  ∧ (∀ g t, lookupTask st.tasks g = some t → (g, t) ∈ st.created)
  ∧ (∀ p ∈ st.created, p.2 ∉ st.cancelled → lookupTask st.tasks p.1 = some p.2)

/-- What the dispatcher knows about a live player (the external
`PlayerManager` collaborator): whether it believes playback is active, whether
it has been connected for over the 5-minute grace period, and — for the
track-exception guard — whether its node is this websocket's node. -/
structure PlayerView where
  isPlaying : Bool
  connectedOver5Min : Bool
  sameNode : Bool

/-- The dispatcher's environment: the client shutdown flag, this socket's
readiness event, and the player registry. -/
structure DispatchEnv where
  isShuttingDown : Bool
  readySet : Bool
  players : Int → Option PlayerView

/-- Observable actions of the frame dispatcher. -/
inductive Effect where
  | logWarning (message : String)
  | logDebug (message : String)
  | logVerbose (message : String)
  | statsUpdated
  | playerStateUpdated (guildId : Int)
  | readySet
  | handledByPlayer (eventName : String)
  | dispatched (eventName : String)
deriving DecidableEq, Repr

/-- The payload of a `playerUpdate` frame (`LavalinkPlayerUpdateObject`):
the guild id and `state.connected`. -/
structure PlayerUpdate where
  guildId : Int
  stateConnected : Bool
deriving DecidableEq, Repr

/-- `WebSocket.handle_player_update` (websocket.py:430-454): look up the
player; if the node reports the voice connection down while the player is
playing, this socket is ready, and the player has been connected for over 5
minutes, cancel any registered probe for the guild and register a fresh one;
otherwise update the player state ( `player._update_state`, external). -/
def handle_player_update (env : DispatchEnv) (st : ProbeState) (u : PlayerUpdate) :
    ProbeState × List Effect :=
  match env.players u.guildId with
  | some player =>
    if !u.stateConnected && player.isPlaying && env.readySet && player.connectedOver5Min then
      (schedule_probe st u.guildId, [.logVerbose "Creating reconnect task"])
    else (st, [.playerStateUpdated u.guildId])
  | none => (st, [])

/-- A run of `playerUpdate` frames against the dispatcher (the only frames
that touch the probe registry). -/
def runPlayerUpdates (env : DispatchEnv) (evs : List PlayerUpdate) (st : ProbeState) :
    ProbeState :=
  evs.foldl (fun s u => (handle_player_update env s u).1) st

/-- An inbound JSON frame, with the fields the dispatcher reads.  `eventType`
is `data["type"]` (present on every `event` frame the claims concern). -/
structure Frame where
  op : String
  eventType : String
  guildId : Int
  stateConnected : Bool
deriving DecidableEq, Repr

/-- The argument `handle_message` passes to `handle_event`: for the seven
recognized event types, the dacite-typed dataclass (we keep its event type
and guild id — the fields `handle_event` dispatches on); for an unknown event
type, the raw `dict` unchanged (websocket.py:409-411). -/
inductive EventArg where
  | typed (eventType : String) (guildId : Int)
  | raw (frame : Frame)
deriving DecidableEq, Repr

/-- `WebSocket.handle_event` (websocket.py:498-586).  The bodies of the known
branches interact with the external player/event-sink collaborators; we keep
their observable shape (which events are handled/dispatched). The crucial
line for the claims is the player lookup
`self.client.player_manager.get(int(data.guildId))`: on a typed dataclass the
attribute exists, but on the raw `dict` of an unknown event type the
attribute access `data.guildId` raises `AttributeError`.  (The 3-second-sleep
retry of the lookup repeats the same lookup; we model a single one.)  Note
the dispatcher's own unknown-event arm compares against `"SegmentsLoaded"` /
`"SegmentSkipped"` while the typed objects carry `"SegmentsLoadedEvent"` /
`"SegmentSkippedEvent"`, so those fall into the default warn-and-drop arm. -/
def handle_event (env : DispatchEnv) (d : EventArg) : Except PyErr (List Effect) :=
  if env.isShuttingDown then .ok []
  else
    match d with
    | .raw _ => .error .attributeError
    | .typed ty g =>
      match env.players g with
      | none => .ok [.logDebug "Received event for non-existent player!"]
      | some p =>
        if ty = "TrackEndEvent" then
          .ok [.handledByPlayer "TrackEndEvent", .dispatched "TrackEndEvent"]
        else if ty = "TrackExceptionEvent" then
          if p.sameNode then
            .ok [.handledByPlayer "TrackExceptionEvent", .dispatched "TrackExceptionEvent"]
          else .ok []
        else if ty = "TrackStartEvent" then
          .ok [.dispatched "TrackStartSourceSpecificEvent", .dispatched "TrackStartEvent"]
        else if ty = "TrackStuckEvent" then
          .ok [.handledByPlayer "TrackStuckEvent", .dispatched "TrackStuckEvent"]
        else if ty = "WebSocketClosedEvent" then .ok [.dispatched "WebSocketClosedEvent"]
        else if ty = "SegmentsLoaded" then .ok [.dispatched "SegmentsLoadedEvent"]
        else if ty = "SegmentSkipped" then .ok [.dispatched "SegmentSkippedEvent"]
        else .ok [.logWarning "Received unknown event"]

/-- The event types `handle_message` converts to typed dataclasses
(websocket.py:394-408). -/
def knownEventTypes : List String :=
  ["TrackStartEvent", "TrackEndEvent", "TrackExceptionEvent", "TrackStuckEvent",
   "WebSocketClosedEvent", "SegmentsLoadedEvent", "SegmentSkippedEvent"]

/-- `WebSocket.handle_message` (websocket.py:377-416): dispatch on
`data["op"]`.  For `event` frames, a secondary dispatch on `data["type"]`
converts the payload to a typed dataclass; an *unknown* event type logs a
warning but still falls through to `await self.handle_event(data)` with the
raw dict.  Unknown ops log a warning and nothing else.  (`stats` and `ready`
update external/readiness state; kept as effects.)  A raised exception
discards the accumulated effects in this `Except` model; the claims only use
which calls raise. -/
def handle_message (env : DispatchEnv) (st : ProbeState) (data : Frame) :
    Except PyErr (ProbeState × List Effect) :=
  if data.op = "playerUpdate" then
    .ok (handle_player_update env st ⟨data.guildId, data.stateConnected⟩)
  else if data.op = "stats" then .ok (st, [.statsUpdated])
  else if data.op = "event" then
    if knownEventTypes.contains data.eventType then
      match handle_event env (.typed data.eventType data.guildId) with
      | .ok effs => .ok (st, effs)
      | .error e => .error e
    else
      match handle_event env (.raw data) with
      | .ok effs => .ok (st, .logWarning "Received unknown event" :: effs)
      | .error e => .error e
  else if data.op = "ready" then .ok (st, [.readySet])
  else .ok (st, [.logWarning "Received unknown op"])

/-- A concrete dispatcher environment for the closed theorems: client not
shutting down, socket ready, every guild having a live, playing,
long-connected player on this node. -/
def sampleDispatchEnv : DispatchEnv :=
  { isShuttingDown := false, readySet := true,
    players := fun _ => some { isPlaying := true, connectedOver5Min := true, sameNode := true } }


/-! ## The query classifier (`pylav/query.py`)

The classifier is driven by `re.match` against a fixed battery of patterns,
all compiled with `re.IGNORECASE`.  We embed the patterns as abstract syntax
(`RE`) and run them with a backtracking matcher.  Only whether `re.match`
succeeds matters to the classifier's control flow (`match` is truthy iff the
pattern matches at position 0, consuming any prefix), so the matcher decides
matchability; greedy/lazy distinctions affect only group spans, not
matchability.  The matcher carries a fuel argument that makes the recursion
structural; every loop step consumes fuel, and the `star` case requires
strict progress on the input, so any fuel bound of the form
`(pattern size + 1) * (input length + 1) * …` is enough — the theorems only
evaluate concrete matches, where the chosen fuel is ample. -/

/-- Regular-expression syntax, as used by the patterns of `query.py`:
literals (matched case-insensitively — `re.IGNORECASE`), `.` (any char but
newline), character classes as range lists (negated or not, matched
case-insensitively), concatenation, alternation, `*`, `+`, `?`, negative
lookahead `(?!…)`, and `$`. -/
inductive RE where
  | eps
  | lit (c : Char)
  | anyc
  | cls (neg : Bool) (ranges : List (Char × Char))
  | cat (a b : RE)
  | alt (a b : RE)
  | star (a : RE)
  | plus (a : RE)
  | opt (a : RE)
  | nla (a : RE)
  | eol

/-- Case-insensitive character comparison (ASCII, as in these patterns). -/
def charFoldEq (a b : Char) : Bool := a == b || a.toLower == b.toLower

/-- Class membership under `re.IGNORECASE`: the character matches a range if
it, or its other-case form, lies inside. -/
def clsMatch (neg : Bool) (ranges : List (Char × Char)) (c : Char) : Bool :=
  let inR := ranges.any fun r =>
    (decide (r.1 ≤ c) && decide (c ≤ r.2))
    || (decide (r.1 ≤ c.toLower) && decide (c.toLower ≤ r.2))
    || (decide (r.1 ≤ c.toUpper) && decide (c.toUpper ≤ r.2))
  if neg then !inR else inR

/-- Backtracking matcher in continuation-passing style.  `reMatch fuel re s k`
decides whether some split `s = consumed ++ rest` exists with `re` matching
`consumed` and `k rest` true.  `$` (`eol`) matches at the very end or just
before a sole trailing newline, as in Python. -/
def reMatch : Nat → RE → List Char → (List Char → Bool) → Bool
  | 0, _, _, _ => false
  | fuel + 1, re, s, k =>
    match re with
    | .eps => k s
    | .lit c =>
      match s with
      | [] => false
      | x :: rest => charFoldEq x c && k rest
    | .anyc =>
      match s with
      | [] => false
      | x :: rest => (x != '\n') && k rest
    | .cls neg ranges =>
      match s with
      | [] => false
      | x :: rest => clsMatch neg ranges x && k rest
    | .cat a b => reMatch fuel a s (fun s2 => reMatch fuel b s2 k)
    | .alt a b => reMatch fuel a s k || reMatch fuel b s k
    | .star a =>
      reMatch fuel a s (fun s2 =>
        if s2.length < s.length then reMatch fuel (.star a) s2 k else false) || k s
    | .plus a => reMatch fuel a s (fun s2 => reMatch fuel (.star a) s2 k)
    | .opt a => reMatch fuel a s k || k s
    | .nla a => !(reMatch fuel a s (fun _ => true)) && k s
    | .eol => (decide (s = []) || decide (s = ['\n'])) && k s

/-- Fuel that is ample for every concrete evaluation in this file. -/
def reFuel : Nat := 1000

/-- Truthiness of `PATTERN.match(query)` (match anchored at position 0,
consuming any prefix). -/
def reMatches (re : RE) (s : String) : Bool :=
  reMatch reFuel re s.data (fun _ => true)

/-- A literal string as a pattern. -/
def reStr (s : String) : RE := s.data.foldr (fun c acc => .cat (.lit c) acc) .eps

/-- Alternation of a list of patterns (empty list never matches). -/
def reAlt : List RE → RE
  | [] => .cls false []
  | [r] => r
  | r :: rs => .alt r (reAlt rs)

/-- Alternation of literal strings. -/
def reAltS (ss : List String) : RE := reAlt (ss.map reStr)

/-- Concatenation of a list of patterns. -/
def reSeq : List RE → RE
  | [] => .eps
  | [r] => r
  | r :: rs => .cat r (reSeq rs)

/-- `[^/]` -/
def reNotSlash : RE := .cls true [('/', '/')]

/-- `\d` -/
def reDigit : RE := .cls false [('0', '9')]

/-- `[a-zA-Z0-9-_]` (the `-` after the `0-9` range is literal). -/
def reWordCls : RE := .cls false [('a', 'z'), ('A', 'Z'), ('0', '9'), ('-', '-'), ('_', '_')]

/-- `[a-zA-Z\d\\-_]`: letters, digits, and the *range* `\\-_` (code points
0x5C–0x5F: backslash, right bracket, caret, underscore). -/
def reSpotifyIdCls : RE := .cls false [('a', 'z'), ('A', 'Z'), ('0', '9'), ('\\', '_')]

/-- `(?:http://|https://|)` -/
def reSchemeOpt : RE := reAlt [reStr "http://", reStr "https://", .eps]

/-- `(https?://)?` -/
def reHttpOpt : RE := .opt (reSeq [reStr "http", .opt (.lit 's'), reStr "://"])

/-- `(?:\?.*|)` -/
def reQueryTail : RE := .alt (.cat (.lit '?') (.star .anyc)) .eps

/-- `YOUTUBE_REGEX` (query.py:73):
`(?:http://|https://|)(?:www\.|)(?P<music>music\.)?youtu(be\.com|\.be)`. -/
def YOUTUBE_RE : RE :=
  reSeq [reSchemeOpt, reAlt [reStr "www.", .eps], .opt (reStr "music."),
         reStr "youtu", .alt (reStr "be.com") (reStr ".be")]

/-- `YOUTUBE_REGEX` with the `music` group made mandatory: the group
participates in a match exactly when this variant matches (nothing else in
the pattern can absorb the `music.` text), which is how
`bool(match.group("music"))` is decided. -/
def YOUTUBE_MUSIC_RE : RE :=
  reSeq [reSchemeOpt, reAlt [reStr "www.", .eps], reStr "music.",
         reStr "youtu", .alt (reStr "be.com") (reStr ".be")]

/-- `SPOTIFY_REGEX` (query.py:39-44). -/
def SPOTIFY_RE : RE :=
  reSeq [reHttpOpt, .opt (reStr "www."), reStr "open.spotify.com/",
         .opt (reSeq [reStr "user/", .plus reSpotifyIdCls, .lit '/']),
         reAltS ["track", "album", "playlist", "artist"], .lit '/',
         .plus reSpotifyIdCls]

/-- `APPLE_MUSIC_REGEX` (query.py:46-53).  `[a-zA-Z\d\\-]` is letters,
digits, backslash and a literal dash; `[a-zA-Z\d.]` is letters, digits and a
literal dot. -/
def APPLE_MUSIC_RE : RE :=
  reSeq [reHttpOpt, .opt (reStr "www."), reStr "music.apple.com/",
         .opt (reSeq [.cls false [('a', 'z'), ('A', 'Z')],
                      .cls false [('a', 'z'), ('A', 'Z')], .lit '/']),
         reAltS ["album", "playlist", "artist"],
         .opt (reSeq [.lit '/',
           .plus (.cls false [('a', 'z'), ('A', 'Z'), ('0', '9'), ('\\', '\\'), ('-', '-')])]),
         .lit '/',
         .plus (.cls false [('a', 'z'), ('A', 'Z'), ('0', '9'), ('.', '.')]),
         .opt (reSeq [reStr "?i=", .plus reDigit])]

/-- `SOUND_CLOUD_REGEX` (query.py:62-71): six top-level alternatives — the
source concatenates five `…$|` lines, so the sixth alternative is the *empty*
pattern, which matches every input at position 0. -/
def SOUND_CLOUD_RE : RE :=
  reAlt
    [reSeq [reSchemeOpt, reStr "soundcloud.app.goo.gl/", .plus reWordCls,
            .opt (.lit '/'), reQueryTail, .eol],
     reSeq [reSchemeOpt, reAlt [reStr "www.", .eps], reAlt [reStr "m.", .eps],
            reStr "soundcloud.com/", .plus reWordCls, .lit '/', .plus reWordCls,
            .opt (.lit '/'), reQueryTail, .eol],
     reSeq [reSchemeOpt, reAlt [reStr "www.", .eps], reAlt [reStr "m.", .eps],
            reStr "soundcloud.com/", .plus reWordCls, .lit '/', .plus reWordCls,
            reStr "/s-", .plus reWordCls, reQueryTail, .eol],
     reSeq [reSchemeOpt, reAlt [reStr "www.", .eps], reAlt [reStr "m.", .eps],
            reStr "soundcloud.com/", .plus reWordCls, reStr "/likes",
            .opt (.lit '/'), reQueryTail, .eol],
     reSeq [reSchemeOpt, reAlt [reStr "www.", .eps], reAlt [reStr "m.", .eps],
            reStr "soundcloud.com/", .plus reWordCls, .lit '/', .plus reWordCls,
            .lit '/', .plus reWordCls, reQueryTail, .eol],
     .eps]

/-- `TWITCH_REGEX` (query.py:59). -/
def TWITCH_RE : RE :=
  reSeq [reStr "https://", .opt (reAltS ["www.", "go."]), reStr "twitch.tv/",
         .plus reNotSlash, .eol]

/-- `GCTSS_REGEX` (query.py:75): `^(?P<source>tts://)\s*?(?P<query>.*)$`. -/
def GCTSS_RE : RE :=
  reSeq [reStr "tts://", .star (.cls false [(' ', ' '), ('\t', '\t'), ('\n', '\n'),
         ('\r', '\r'), ('\x0b', '\x0b'), ('\x0c', '\x0c')]), .star .anyc, .eol]

/-- `SPEAK_REGEX` (query.py:74): `^(?P<source>speak):\s*?(?P<query>.*)$`. -/
def SPEAK_RE : RE :=
  reSeq [reStr "speak:", .star (.cls false [(' ', ' '), ('\t', '\t'), ('\n', '\n'),
         ('\r', '\r'), ('\x0b', '\x0b'), ('\x0c', '\x0c')]), .star .anyc, .eol]

/-- `CLYPIT_REGEX` (query.py:18): `(http://|https://(www.)?)?clyp\.it/(.*)` —
the dot in `(www.)` is an unescaped any-char. -/
def CLYPIT_RE : RE :=
  reSeq [.opt (.alt (reStr "http://")
           (.cat (reStr "https://") (.opt (.cat (reStr "www") .anyc)))),
         reStr "clyp.it/", .star .anyc]

/-- `GETYARN_REGEX` (query.py:19) — the dot in `getyarn.io` is unescaped. -/
def GETYARN_RE : RE :=
  reSeq [.opt (.alt (reStr "http://")
           (.cat (reStr "https://") (.opt (reStr "www.")))),
         reStr "getyarn", .anyc, reStr "io/yarn-clip/", .star .anyc]

/-- `MIXCLOUD_REGEX` (query.py:20-23), with its negative lookahead; the dot
in `mixcloud.com` is unescaped. -/
def MIXCLOUD_RE : RE :=
  reSeq [reStr "http", .opt (.lit 's'), reStr "://",
         .opt (.cat (reAltS ["www", "beta", "m"]) (.lit '.')),
         reStr "mixcloud", .anyc, reStr "com/", .plus reNotSlash, .lit '/',
         .nla (reAltS ["stream", "uploads", "favorites", "listens", "playlists"]),
         .plus reNotSlash, .opt (.lit '/')]

/-- `OCRREMIX_PATTERN` (query.py:24). -/
def OCRREMIX_RE : RE :=
  reSeq [.opt (reSeq [reStr "http", .opt (.lit 's'), reStr "://",
           .opt (reStr "www."), reStr "ocremix.org/remix/"]),
         reStr "OCR", .plus reDigit, .opt (.star .anyc)]

/-- `PORNHUB_REGEX` (query.py:25-27) — the dot in `([a-z]+.)` is unescaped. -/
def PORNHUB_RE : RE :=
  reSeq [reStr "http", .opt (.lit 's'), reStr "://",
         .opt (.cat (.plus (.cls false [('a', 'z')])) .anyc),
         reStr "pornhub.", reAltS ["com", "net"], reStr "/view_video.php?viewkey=",
         .plus (.cls false [('a', 'z'), ('A', 'Z'), ('0', '9')]), .star .anyc, .eol]

/-- `REDDIT_REGEX` (query.py:28-34). -/
def REDDIT_RE : RE :=
  .alt
    (reSeq [reStr "https://", reAltS ["www", "old"], reStr ".reddit.com/",
            reStr "r/", .plus reNotSlash, .lit '/', .plus reNotSlash, .lit '/',
            .plus reNotSlash,
            .opt (reSeq [.opt (.lit '/'), .opt (.plus reNotSlash), .opt (.lit '/')])])
    (reSeq [reStr "https://v.redd.it/", .plus reNotSlash, .opt (.star .anyc)])

/-- `SOUNDGASM_REGEX` (query.py:35). -/
def SOUNDGASM_RE : RE :=
  reSeq [reStr "http", .opt (.lit 's'), reStr "://", reStr "soundgasm.net/u/",
         .plus reNotSlash, .lit '/', .plus reNotSlash]

/-- `TIKTOK_REGEX` (query.py:36). -/
def TIKTOK_RE : RE :=
  reSeq [reStr "https://", .opt (reAltS ["www.", "m."]), reStr "tiktok.com/@",
         .plus reNotSlash, reStr "/video/", .plus reDigit, .star .anyc, .eol]

/-- `BANDCAMP_REGEX` (query.py:55-57): `[^.]+` before `bandcamp.com`. -/
def BANDCAMP_RE : RE :=
  reSeq [reStr "http", .opt (.lit 's'), reStr "://",
         reAlt [.cat (.plus (.cls true [('.', '.')])) (.lit '.'), .eps],
         reStr "bandcamp.com", .lit '/', reAltS ["track", "album"], .lit '/',
         .plus reSpotifyIdCls, .opt (.lit '/'), reQueryTail, .eol]

/-- `NICONICO_REGEX` (query.py:58). -/
def NICONICO_RE : RE :=
  reSeq [reAlt [reStr "http://", reStr "https://", .eps], reAlt [reStr "www.", .eps],
         reStr "nicovideo.jp/watch/", reStr "sm", .plus reDigit, reQueryTail, .eol]

/-- `VIMEO_REGEX` (query.py:60) — the dot in `vimeo.com` is unescaped. -/
def VIMEO_RE : RE :=
  reSeq [reStr "https://vimeo", .anyc, reStr "com/", .plus reDigit, reQueryTail, .eol]

/-- `HTTP_REGEX` (query.py:77). -/
def HTTP_RE : RE := reSeq [reStr "http", .opt (.lit 's'), reStr "://"]

/-! ### String utilities used by the classifier -/

/-- Whether `sub` is a (case-sensitive) prefix of `hay`. -/
def startsWithCS : List Char → List Char → Bool
  | _, [] => true
  | [], _ :: _ => false
  | x :: xs, y :: ys => x == y && startsWithCS xs ys

/-- Whether `sub` occurs in `hay` at some position. -/
def listHasSub : List Char → List Char → Bool
  | [], sub => decide (sub = [])
  | h :: t, sub => startsWithCS (h :: t) sub || listHasSub t sub

/-- Substring membership: Python's `sub in query`. -/
def strContainsSub (hay sub : String) : Bool := listHasSub hay.data sub.data

/-- Python `str.strip()` whitespace. -/
def isPyWS (c : Char) : Bool :=
  c == ' ' || c == '\t' || c == '\n' || c == '\r' || c == '\x0b' || c == '\x0c'

/-- Python `str.strip()`. -/
def stripPy (s : String) : String :=
  ⟨((s.data.dropWhile isPyWS).reverse.dropWhile isPyWS).reverse⟩

/-- Case-insensitive literal prefix test (for the anchored literal parts of
group extraction). -/
def startsWithCI : List Char → List Char → Bool
  | _, [] => true
  | [], _ :: _ => false
  | x :: xs, y :: ys => charFoldEq x y && startsWithCI xs ys

/-- Leading decimal digits of a character list, with the rest. -/
def takeDigits : List Char → List Char × List Char
  | [] => ([], [])
  | c :: rest =>
    if '0' ≤ c ∧ c ≤ '9' then
      let (ds, r) := takeDigits rest
      (c :: ds, r)
    else ([], c :: rest)

/-- Numeric value of a digit list. -/
def digitsVal (ds : List Char) : Nat :=
  ds.foldl (fun acc c => acc * 10 + (c.toNat - 48)) 0

/-- `YOUTUBE_TIMESTAMP.search(query)` for `[&|?]t=(\d+)s?`: scan for the
first position where a `&`, `|` or `?` is followed by `t=` and at least one
digit; the group value is the digit run (`int(match.group(1))`). -/
def ytTimestampSearch : List Char → Option Nat
  | [] => none
  | c :: rest =>
    if (c == '&' || c == '|' || c == '?') then
      match rest with
      | 't' :: '=' :: r2 =>
        match takeDigits r2 with
        | ([], _) => ytTimestampSearch rest
        | (ds, _) => some (digitsVal ds)
      | _ => ytTimestampSearch rest
    else ytTimestampSearch rest

/-- `YOUTUBE_INDEX.search(query)` for `&index=(\d+)`. -/
def ytIndexSearch : List Char → Option Nat
  | [] => none
  | c :: rest =>
    if c == '&' then
      if startsWithCI rest "index=".data then
        match takeDigits (rest.drop 6) with
        | ([], _) => ytIndexSearch rest
        | (ds, _) => some (digitsVal ds)
      else ytIndexSearch rest
    else ytIndexSearch rest

/-! ### The `Query` data model (`pylav/query.py`, class `Query`) -/

/-- A classified query.  The query value is kept as the string form (a
resolved local-file handle is represented by its path string).  All other
fields are as in `Query.__init__`. -/
structure Query where
  query : String
  source : String
  search : Bool
  start_time : Nat
  index : Int
  type : String
  recursive : Bool
deriving DecidableEq, Repr

/-- `Query.__init__(query, source, search=False, start_time=0, index=0,
query_type=None, recursive=False)`: the stored type is
`query_type or "single"` — a `None` (or otherwise falsy) type becomes
`"single"`. -/
def Query.init (query source : String) (search : Bool) (start_time : Nat)
    (index : Int) (query_type : Option String) (recursive : Bool) : Query :=
  { query := query, source := source, search := search, start_time := start_time,
    index := index,
    type := match query_type with
            | none => "single"
            | some t => if t = "" then "single" else t,
    recursive := recursive }

/-- `Query.query_identifier` (query.py:271-292).  The `is_youtube` arm is
reached only when the source is exactly `"YouTube"` (the YouTube Music case
is taken first). -/
def Query.query_identifier (q : Query) : String :=
  if q.search then
    if q.source = "YouTube Music" then "ytmsearch:" ++ q.query
    else if q.source = "YouTube" then "ytsearch:" ++ q.query
    else if q.source = "Spotify" then "spsearch:" ++ q.query
    else if q.source = "Apple Music" then "amsearch:" ++ q.query
    else if q.source = "SoundCloud" then "scsearch:" ++ q.query
    else if q.source = "speak" then "speak:" ++ q.query.take 200
    else if q.source = "Google TTS" then "tts://" ++ q.query
    else "ytsearch:" ++ q.query
  else if q.source = "Local Files" then q.query
  else q.query

/-- `Query.with_index` (query.py:514-522): a constructor call passing every
field except `recursive` (which therefore takes the constructor default,
`False`). -/
def Query.with_index (q : Query) (i : Int) : Query :=
  Query.init q.query q.source q.search q.start_time i (some q.type) false

/-- `process_youtube` (query.py:88-113). -/
def process_youtube (query : String) (music : Bool) : Query :=
  let start_time := match ytTimestampSearch query.data with
    | some v => v
    | none => 0
  let hasIndex := strContainsSub query "&index="
  let index0 : Int := if hasIndex then
      match ytIndexSearch query.data with
      | some v => (v : Int) - 1
      | none => 0
    else 0
  if strContainsSub query "&list=" && strContainsSub query "watch?" then
    Query.init query (if music then "YouTube Music" else "YouTube") false start_time 0
      (some "playlist") false
  else if strContainsSub query "playlist?" then
    Query.init query (if music then "YouTube Music" else "YouTube") false start_time index0
      (some "playlist") false
  else if strContainsSub query "list=" then
    Query.init query (if music then "YouTube Music" else "YouTube") false start_time 0
      (some (if hasIndex then "single" else "playlist")) false
  else
    Query.init query (if music then "YouTube Music" else "YouTube") false start_time index0
      (some "single") false

/-- `process_spotify` (query.py:116-122). -/
def process_spotify (query : String) : Query :=
  Query.init query "Spotify" false 0 0
    (some (if strContainsSub query "/playlist/" then "playlist"
           else if strContainsSub query "/album/" then "album" else "single")) false

/-- `process_soundcloud` (query.py:125-133). -/
def process_soundcloud (query : String) : Query :=
  Query.init query "SoundCloud" false 0 0
    (some (if strContainsSub query "/sets/" then
             (if strContainsSub query "?in=" then "single" else "playlist")
           else "single")) false

/-- `process_bandcamp` (query.py:136-141). -/
def process_bandcamp (query : String) : Query :=
  Query.init query "Bandcamp" false 0 0
    (some (if strContainsSub query "/album/" then "album" else "single")) false

/-- `Query.__process_urls` (query.py:294-336): the fixed-priority battery of
provider patterns, first match wins.  For the two speech prefixes the group
`(?P<query>.*)` is the text after the literal prefix (the lazy `\s*?`
contributes nothing that the subsequent `.strip()` does not also remove). -/
def process_urls (query : String) : Option Query :=
  if reMatches YOUTUBE_RE query then
    some (process_youtube query (reMatches YOUTUBE_MUSIC_RE query))
  else if reMatches SPOTIFY_RE query then some (process_spotify query)
  else if reMatches APPLE_MUSIC_RE query then
    some (Query.init query "Apple Music" false 0 0 none false)
  else if reMatches SOUND_CLOUD_RE query then some (process_soundcloud query)
  else if reMatches TWITCH_RE query then some (Query.init query "Twitch" false 0 0 none false)
  else if reMatches GCTSS_RE query then
    some (Query.init (stripPy (query.drop 6)) "Google TTS" true 0 0 none false)
  else if reMatches SPEAK_RE query then
    some (Query.init (stripPy (query.drop 6)) "speak" true 0 0 none false)
  else if reMatches CLYPIT_RE query then some (Query.init query "Clyp.it" false 0 0 none false)
  else if reMatches GETYARN_RE query then some (Query.init query "GetYarn" false 0 0 none false)
  else if reMatches MIXCLOUD_RE query then some (Query.init query "Mixcloud" false 0 0 none false)
  else if reMatches OCRREMIX_RE query then
    some (Query.init query "OverClocked ReMix" false 0 0 none false)
  else if reMatches PORNHUB_RE query then some (Query.init query "Pornhub" false 0 0 none false)
  else if reMatches REDDIT_RE query then some (Query.init query "Reddit" false 0 0 none false)
  else if reMatches SOUNDGASM_RE query then
    some (Query.init query "SoundGasm" false 0 0 none false)
  else if reMatches TIKTOK_RE query then some (Query.init query "TikTok" false 0 0 none false)
  else if reMatches BANDCAMP_RE query then some (process_bandcamp query)
  else if reMatches NICONICO_RE query then some (Query.init query "Niconico" false 0 0 none false)
  else if reMatches VIMEO_RE query then some (Query.init query "Vimeo" false 0 0 none false)
  else if reMatches HTTP_RE query then some (Query.init query "HTTP" false 0 0 none false)
  else none

/-- The groups of `SEARCH_REGEX` (query.py:76):
`^(?P<source>ytm|yt|sp|sc|am)search:\s*?(?P<query>.*)$`.  The alternatives
are tried in order and the literal `search:` must follow, so the source
group is simply the first listed prefix that (case-insensitively) starts the
input followed by `search:`; `match.group("source")` returns the *original*
text (case preserved), and the query group is the remainder. -/
def searchRegexGroups (s : String) : Option (String × String) :=
  let try1 := fun (p : String) =>
    startsWithCI s.data (p ++ "search:").data
  if try1 "ytm" then some (⟨s.data.take 3⟩, s.drop 10)
  else if try1 "yt" then some (⟨s.data.take 2⟩, s.drop 9)
  else if try1 "sp" then some (⟨s.data.take 2⟩, s.drop 9)
  else if try1 "sc" then some (⟨s.data.take 2⟩, s.drop 9)
  else if try1 "am" then some (⟨s.data.take 2⟩, s.drop 9)
  else none

/-- `Query.__process_search` (query.py:338-353): note the `"yt"` arm returns
source `"YouTube Music"` (query.py:344-345), like the `"ytm"` arm and the
fallback. -/
def process_search (query : String) : Option Query :=
  match searchRegexGroups query with
  | none => none
  | some (src, rest) =>
    let q := stripPy rest
    if src = "ytm" then some (Query.init q "YouTube Music" true 0 0 none false)
    else if src = "yt" then some (Query.init q "YouTube Music" true 0 0 none false)
    else if src = "sp" then some (Query.init q "Spotify" true 0 0 none false)
    else if src = "sc" then some (Query.init q "SoundCloud" true 0 0 none false)
    else if src = "am" then some (Query.init q "Apple Music" true 0 0 none false)
    else some (Query.init q "YouTube Music" true 0 0 none false)

/-- `Query.from_string_noawait` (query.py:407-421) on a plain string: URLs
first, then the search directive, then the YouTube-Music-search fallback.
(`from_string` additionally tries local-path resolution before the fallback;
for any input one of the first two steps matches — as for every input in
this development — the two functions agree.) -/
def from_string_noawait (query : String) : Query :=
  match process_urls query with
  | some out => out
  | none =>
    match process_search query with
    | some out => out
    | none => Query.init query "YouTube Music" true 0 0 none false


/-! ## Helper lemmas about the decoder -/

/-- In the `local`/`http` branch of the guarded region, the probe info is the
result of the plain (non-nullable) `read_utfm`, or `None` when that read
raises; `thumbnail` and `isrc` stay `None`. -/
theorem optionalFields_local_http (source identifier : List Nat) (r : List Nat)
    (hsrc : source = strCodes "local" ∨ source = strCodes "http") :
    optionalFields source identifier r =
      (none, none,
        match DataReader.read_utfm r with
        | .ok (p, _) => some p
        | .error _ => none) := by
  rcases hsrc with h | h <;> subst h <;>
    rw [optionalFields, if_neg (by decide), if_neg (by decide), if_neg (by decide),
      if_pos (by decide)] <;>
    rcases DataReader.read_utfm r with e | ⟨p, r2⟩ <;> rfl

/-! ## Claim theorems: the track codec -/

/-- C3: for every input track string for which decoding of the fixed fields
(steps 1–9) succeeds, any exception raised while parsing the source-specific
optional fields or the trailing position (steps 10–11) is caught, and
`decode_track` still returns a track object carrying the successfully parsed
fields 1–9 (with `isSeekable = not isStream` and `position = 0`), the optional
fields holding whatever the guarded region managed to assign before any
exception (unfilled ones stay null); decoding never aborts fatally in that
case. -/
theorem decode_track_total_after_fixed (s : String) (bytes : List Nat)
    (f : FixedFields) (r : List Nat)
    (hb : b64decode s = .ok bytes) (hf : decodeFixedFields bytes = .ok (f, r)) :
    decode_track s = .ok
      { encoded := s,
        info := { title := f.title, author := f.author, length := f.length,
                  identifier := f.identifier, isStream := f.isStream, uri := f.uri,
                  isSeekable := !f.isStream, sourceName := f.sourceName, position := 0,
                  thumbnail := (optionalFields f.sourceName f.identifier r).1,
                  isrc := (optionalFields f.sourceName f.identifier r).2.1,
                  probeInfo := (optionalFields f.sourceName f.identifier r).2.2 } } := by
  unfold decode_track
  simp only [hb, hf]

/-- C3 witness: the truncated deezer sample — the first guarded read fails,
yet decoding succeeds with all optional fields null. -/
theorem decode_track_total_after_fixed_witness :
    decode_track deezerSampleStr = .ok
      { encoded := deezerSampleStr,
        info := { title := [], author := [], length := 0, identifier := [97],
                  isStream := false, uri := none, isSeekable := true,
                  sourceName := strCodes "deezer", position := 0,
                  thumbnail := none, isrc := none, probeInfo := none } } := by
  have h := decode_track_total_after_fixed deezerSampleStr deezerSampleBytes
    deezerSampleFixed [] (by decide) (by decide)
  rw [h]; decide

/-- C7: every track string that decodes successfully yields a track whose
`encoded` field is the input string itself, and decoding is a deterministic
function of the input string. -/
theorem decode_track_encoded_eq_input (s : String) (t : LavalinkTrackObject)
    (h : decode_track s = .ok t) :
    t.encoded = s ∧ ∀ t2, decode_track s = .ok t2 → t2 = t := by
  constructor
  · unfold decode_track at h
    rcases hb : b64decode s with e | bytes <;> simp only [hb] at h
    · simp at h
    · rcases hf : decodeFixedFields bytes with e | ⟨f, r⟩ <;> simp only [hf] at h
      · simp at h
      · simp only [Except.ok.injEq] at h
        rw [← h]
  · intro t2 h2
    rw [h] at h2
    exact (Except.ok.injEq _ _ ▸ h2).symm

/-- C7 witness at the spotify sample. -/
theorem decode_track_encoded_eq_input_witness :
    spotifySampleTrack.encoded = spotifySampleStr :=
  (decode_track_encoded_eq_input spotifySampleStr spotifySampleTrack (by decide)).1

/-- C5 counterexample: for the http-source track whose bytes after the fixed
fields are `0x00 0x00` (exactly how an absent nullable field is written), the
claim predicts `probeInfo = none` (a presence flag read as false); the code
instead reads a plain length-prefixed modified-UTF8 string and returns
`probeInfo = some ""` (the empty string), consuming the flag byte as part of
the length. -/
theorem decode_track_probe_not_nullable_counterexample :
    b64decode httpProbeSampleStr = .ok httpProbeSampleBytes
    ∧ (decodeFixedFields httpProbeSampleBytes = .ok (httpProbeSampleFixed, [0, 0])
        ∧ httpProbeSampleFixed.sourceName = strCodes "http")
    ∧ (decode_track httpProbeSampleStr).map (fun t => t.info.probeInfo) = .ok (some [])
    ∧ (DataReader.read_nullable_utfm [0, 0]).map Prod.fst = .ok none
    ∧ some ([] : List Nat) ≠ none :=
  ⟨by decide, ⟨by decide, by decide⟩, by decide, by decide, by decide⟩

/-- C5 amended: when decoding a track whose sourceName is `"local"` or
`"http"`, the probe-info field is read as a *plain* length-prefixed
modified-UTF8 string (no presence flag); if that read raises (e.g. on a
truncated buffer) the exception is caught by the guarded region and
`probeInfo` is left null. -/
theorem decode_track_probe_plain_utfm (s : String) (bytes : List Nat)
    (f : FixedFields) (r : List Nat)
    (hb : b64decode s = .ok bytes) (hf : decodeFixedFields bytes = .ok (f, r))
    (hsrc : f.sourceName = strCodes "local" ∨ f.sourceName = strCodes "http") :
    (decode_track s).map (fun t => t.info.probeInfo) =
      .ok (match DataReader.read_utfm r with
           | .ok (p, _) => some p
           | .error _ => none) := by
  unfold decode_track
  simp only [hb, hf, optionalFields_local_http f.sourceName f.identifier r hsrc]
  rcases DataReader.read_utfm r with e | ⟨p, r2⟩ <;> rfl

/-- C5 amended, witness: the local sample with probe info `"ab"`. -/
theorem decode_track_probe_plain_utfm_witness :
    (decode_track localProbeSampleStr).map (fun t => t.info.probeInfo) =
      .ok (some [97, 98]) := by
  have h := decode_track_probe_plain_utfm localProbeSampleStr localProbeSampleBytes
    localProbeSampleFixed [0, 2, 97, 98, 0, 0, 0, 0, 0, 0, 0, 0]
    (by decide) (by decide) (Or.inl (by decide))
  rw [h]; decide

/-- C10: `DataWriter.write_utf` raises `OverflowError` exactly when the UTF-8
encoding of its argument exceeds 65535 bytes; in that case the buffer is
unchanged, otherwise it appends the 2-byte big-endian byte length followed by
the UTF-8 bytes. -/
theorem write_utf_contract (w : DataWriter) (s : String) :
    ((DataWriter.write_utf w s).2 = some PyErr.overflowError
        ↔ 65535 < (DataWriter.utf8Encode s).length)
    ∧ ((DataWriter.write_utf w s).2 ≠ none → (DataWriter.write_utf w s).1 = w)
    ∧ ((DataWriter.write_utf w s).2 = none →
        (DataWriter.write_utf w s).1.buf =
          w.buf ++ [(DataWriter.utf8Encode s).length / 256 % 256,
                    (DataWriter.utf8Encode s).length % 256]
            ++ DataWriter.utf8Encode s) := by
  unfold DataWriter.write_utf
  by_cases h : 65535 < (DataWriter.utf8Encode s).length
  · simp [h]
  · simp [h, DataWriter.write, DataWriter.write_unsigned_short]

/-- C10 witness: writing `"ab"` to an empty writer. -/
theorem write_utf_contract_witness :
    (DataWriter.write_utf ⟨[]⟩ "ab").1.buf = [0, 2, 97, 98] := by
  have h := (write_utf_contract ⟨[]⟩ "ab").2.2 (by decide)
  rw [h]; decide

/-! ## Helper lemmas: the outbound queue and the connect loop -/

/-- While the readiness event is not set, `send` never reaches the transport:
the whole flush fold leaves `transport` unchanged (and readiness stays
clear). -/
theorem flush_fold_no_ready (l : List Msg) (st : WSState) (h : st.ready = false) :
    (l.foldl (fun s m => send s m false) st).transport = st.transport
    ∧ (l.foldl (fun s m => send s m false) st).ready = false := by
  induction l generalizing st with
  | nil => exact ⟨rfl, h⟩
  | cons m tl ih =>
    have h1 : (send st m false).transport = st.transport ∧ (send st m false).ready = false := by
      unfold send connected
      by_cases hm : st.manualShutdown <;> simp [hm, h]
    simp only [List.foldl_cons]
    have h2 := ih (send st m false) h1.2
    exact ⟨h2.1.trans h1.1, h2.2⟩

/-- Running the connect loop into a 401/403 handshake failure after only
retryable outcomes stops the loop right there with the terminal auth-failure
result, never looking at later outcomes. -/
theorem connectLoop_auth_stop (maxAttempts : Int) (status : Nat)
    (hstatus : status = 401 ∨ status = 403) :
    ∀ (pre : List AttemptOutcome), (∀ o ∈ pre, retryableOutcome o = true) →
      ∀ (post : List AttemptOutcome) (a : Nat),
      (maxAttempts = -1 ∨ (a : Int) + pre.length < maxAttempts) →
      connectLoop maxAttempts false false (pre ++ .handshakeError status :: post) a
        = (a + pre.length + 1, .authFailure) := by
  intro pre
  induction pre with
  | nil =>
    intro _ post a hmax
    have hcond : ¬(maxAttempts ≠ -1 ∧ ¬((a : Int) < maxAttempts)) := by
      rcases hmax with h | h
      · simp [h]
      · simp only [List.length_nil, Nat.cast_zero, add_zero] at h
        intro hc
        exact hc.2 h
    rw [List.nil_append, connectLoop, if_neg hcond]
    simp [hstatus]
  | cons o tl ih =>
    intro hpre post a hmax
    have ho := hpre o (List.mem_cons_self o tl)
    have htl : ∀ x ∈ tl, retryableOutcome x = true :=
      fun x hx => hpre x (List.mem_cons_of_mem o hx)
    have hmax1 : maxAttempts = -1 ∨ ((a + 1 : Nat) : Int) + tl.length < maxAttempts := by
      rcases hmax with h | h
      · exact Or.inl h
      · right
        simp only [List.length_cons] at h
        push_cast at h ⊢
        omega
    have hcond : ¬(maxAttempts ≠ -1 ∧ ¬((a : Int) < maxAttempts)) := by
      rcases hmax with h | h
      · simp [h]
      · intro hc
        apply hc.2
        have hl : (0 : Int) ≤ ((o :: tl).length : Int) := Int.natCast_nonneg _
        omega
    have hres := ih htl post (a + 1) hmax1
    have harith : a + 1 + tl.length + 1 = a + (o :: tl).length + 1 := by
      simp only [List.length_cons]
      omega
    cases o with
    | apiVersionMissing => simp [retryableOutcome] at ho
    | connectorError =>
      rw [List.cons_append, connectLoop, if_neg hcond]
      simpa [hres] using harith
    | serverDisconnected =>
      rw [List.cons_append, connectLoop, if_neg hcond]
      simpa [hres] using harith
    | handshakeError st =>
      have hst : ¬(st = 401 ∨ st = 403) := by
        simp only [retryableOutcome, decide_eq_true_eq] at ho
        tauto
      rw [List.cons_append, connectLoop, if_neg hcond]
      simp only [Bool.false_eq_true, if_false, if_neg hst]
      simpa [hres] using harith
    | connectionSuccess => simp [retryableOutcome] at ho

/-! ## Helper lemmas: the probe registry -/

theorem lookupTask_setTask_self (tasks : List (Int × Nat)) (g : Int) (t : Nat) :
    lookupTask (setTask tasks g t) g = some t := by
  induction tasks with
  | nil => simp [setTask, lookupTask]
  | cons p tl ih =>
    by_cases hp : p.1 = g
    · simp [setTask, lookupTask, hp]
    · simp [setTask, lookupTask, hp, ih]

theorem lookupTask_setTask_ne (tasks : List (Int × Nat)) (g gx : Int) (t : Nat)
    (hne : gx ≠ g) :
    lookupTask (setTask tasks g t) gx = lookupTask tasks gx := by
  induction tasks with
  | nil => simp [setTask, lookupTask, hne.symm]
  | cons p tl ih =>
    by_cases hp : p.1 = g
    · have h2 : p.1 ≠ gx := by
        rw [hp]
        exact hne.symm
      simp [setTask, lookupTask, hp, hne.symm, h2]
    · by_cases hx : p.1 = gx
      · simp [setTask, lookupTask, hp, hx, hne]
      · simp [setTask, lookupTask, hp, hx, ih]

theorem probeWF_schedule (st : ProbeState) (g : Int) (h : ProbeWF st) :
    ProbeWF (schedule_probe st g) := by
  obtain ⟨hA, hB, hC, hD⟩ := h
  unfold schedule_probe
  cases hlk : lookupTask st.tasks g with
  | none =>
    refine ⟨?_, ?_, ?_, ?_⟩
    · intro p hp
      rcases List.mem_append.mp hp with hp | hp
      · exact Nat.lt_succ_of_lt (hA p hp)
      · simp only [List.mem_singleton] at hp
        subst hp
        exact Nat.lt_succ_self _
    · rw [List.map_append, List.nodup_append]
      refine ⟨hB, List.nodup_singleton _, ?_⟩
      intro x hx hx'
      simp only [List.map_singleton, List.mem_singleton] at hx'
      subst hx'
      obtain ⟨p, hp, hps⟩ := List.mem_map.mp hx
      exact absurd (hps ▸ hA p hp) (lt_irrefl _)
    · intro gx tx hgx
      by_cases hg : gx = g
      · subst hg
        rw [lookupTask_setTask_self] at hgx
        injection hgx with hgx
        subst hgx
        exact List.mem_append.mpr (Or.inr (List.mem_singleton.mpr rfl))
      · rw [lookupTask_setTask_ne _ _ _ _ hg] at hgx
        exact List.mem_append.mpr (Or.inl (hC gx tx hgx))
    · intro p hp hpc
      rcases List.mem_append.mp hp with hp | hp
      · have hold := hD p hp hpc
        have hpg : p.1 ≠ g := by
          intro he
          rw [he, hlk] at hold
          cases hold
        rw [lookupTask_setTask_ne _ _ _ _ hpg]
        exact hold
      · simp only [List.mem_singleton] at hp
        subst hp
        exact lookupTask_setTask_self _ _ _
  | some t0 =>
    refine ⟨?_, ?_, ?_, ?_⟩
    · intro p hp
      rcases List.mem_append.mp hp with hp | hp
      · exact Nat.lt_succ_of_lt (hA p hp)
      · simp only [List.mem_singleton] at hp
        subst hp
        exact Nat.lt_succ_self _
    · rw [List.map_append, List.nodup_append]
      refine ⟨hB, List.nodup_singleton _, ?_⟩
      intro x hx hx'
      simp only [List.map_singleton, List.mem_singleton] at hx'
      subst hx'
      obtain ⟨p, hp, hps⟩ := List.mem_map.mp hx
      exact absurd (hps ▸ hA p hp) (lt_irrefl _)
    · intro gx tx hgx
      by_cases hg : gx = g
      · subst hg
        rw [lookupTask_setTask_self] at hgx
        injection hgx with hgx
        subst hgx
        exact List.mem_append.mpr (Or.inr (List.mem_singleton.mpr rfl))
      · rw [lookupTask_setTask_ne _ _ _ _ hg] at hgx
        exact List.mem_append.mpr (Or.inl (hC gx tx hgx))
    · intro p hp hpc
      have hpc1 : p.2 ∉ st.cancelled := fun hx =>
        hpc (List.mem_append.mpr (Or.inl hx))
      have hpt0 : p.2 ≠ t0 := by
        intro he
        exact hpc (List.mem_append.mpr (Or.inr (List.mem_singleton.mpr he)))
      rcases List.mem_append.mp hp with hp | hp
      · have hold := hD p hp hpc1
        have hpg : p.1 ≠ g := by
          intro he
          rw [he, hlk] at hold
          injection hold with hold
          exact hpt0 hold.symm
        rw [lookupTask_setTask_ne _ _ _ _ hpg]
        exact hold
      · simp only [List.mem_singleton] at hp
        subst hp
        exact lookupTask_setTask_self _ _ _

theorem probeWF_handle_player_update (env : DispatchEnv) (st : ProbeState)
    (u : PlayerUpdate) (h : ProbeWF st) :
    ProbeWF (handle_player_update env st u).1 := by
  unfold handle_player_update
  cases env.players u.guildId with
  | none => exact h
  | some player =>
    by_cases hc : (!u.stateConnected && player.isPlaying && env.readySet
        && player.connectedOver5Min) = true
    · simpa [hc] using probeWF_schedule st u.guildId h
    · simpa [hc] using h

theorem probeWF_run (env : DispatchEnv) (evs : List PlayerUpdate) (st : ProbeState)
    (h : ProbeWF st) : ProbeWF (runPlayerUpdates env evs st) := by
  induction evs generalizing st with
  | nil => exact h
  | cons u tl ih =>
    exact ih (handle_player_update env st u).1 (probeWF_handle_player_update env st u h)

theorem nodup_all_eq_length_le_one {α : Type} (l : List α) (v : α)
    (hn : l.Nodup) (he : ∀ x ∈ l, x = v) : l.length ≤ 1 := by
  match l with
  | [] => simp
  | [a] => simp
  | a :: b :: tl =>
    exfalso
    have ha := he a (List.mem_cons_self _ _)
    have hb := he b (List.mem_cons_of_mem _ (List.mem_cons_self _ _))
    have hab : a ≠ b := by
      intro he2
      exact (List.nodup_cons.mp hn).1 (he2 ▸ List.mem_cons_self b tl)
    exact hab (ha.trans hb.symm)

theorem liveProbes_length_le_one (st : ProbeState) (h : ProbeWF st) (g : Int) :
    (liveProbes st g).length ≤ 1 := by
  obtain ⟨hA, hB, hC, hD⟩ := h
  have key : ∀ y ∈ liveProbes st g, lookupTask st.tasks g = some y := by
    intro y hy
    unfold liveProbes at hy
    obtain ⟨p, hp, hpy⟩ := List.mem_map.mp hy
    have hpf := List.mem_filter.mp hp
    have hcond := hpf.2
    simp only [Bool.and_eq_true, beq_iff_eq, Bool.not_eq_true'] at hcond
    have hpg : p.1 = g := hcond.1
    have hpc : p.2 ∉ st.cancelled := by
      intro hmem
      have hTrue : st.cancelled.contains p.2 = true := List.elem_eq_true_of_mem hmem
      rw [hTrue] at hcond
      simp at hcond
    have hres := hD p hpf.1 hpc
    rw [hpg] at hres
    rw [hres, hpy]
  have hsub : (liveProbes st g).Sublist (st.created.map Prod.snd) := by
    unfold liveProbes
    exact (List.filter_sublist _).map _
  have hnodup : (liveProbes st g).Nodup := hB.sublist hsub
  cases hl : liveProbes st g with
  | nil => simp
  | cons x xs =>
    have hx : lookupTask st.tasks g = some x := key x (hl ▸ List.mem_cons_self _ _)
    apply nodup_all_eq_length_le_one (x :: xs) x (hl ▸ hnodup)
    intro y hy
    have hy' := key y (hl ▸ hy)
    rw [hx] at hy'
    injection hy' with hy'
    exact hy'.symm

/-! ## Claim theorems: the websocket connection -/

/-- C1 is violated by the code (code bug).  On a successful (re)connect the
queue flush runs before the node's `ready` frame has been processed, so
`self.connected` — which requires `self.ready.is_set()` — is still false;
`send` therefore re-appends every flushed message to the queue, and the
`clear()` that follows discards them all: no message enqueued while
disconnected ever reaches the transport.  First conjunct: for *every* state,
the reconnect path leaves the transport unchanged and empties the queue.
Remaining conjuncts: the concrete scenario — message `0` sent while
disconnected, a successful reconnect, the ready frame, then message `1`:
the wire ends up carrying `[1]` where the claim demands `[0, 1]`. -/
theorem queued_messages_dropped_on_reconnect :
    (∀ s : WSState, (connectSuccess s).transport = s.transport
        ∧ (connectSuccess s).messageQueue = [])
    ∧ (send (wsHandleReady (connectSuccess
        (send ⟨false, false, false, [], []⟩ 0 false))) 1 false).transport = [1]
    ∧ (send (wsHandleReady (connectSuccess
        (send ⟨false, false, false, [], []⟩ 0 false))) 1 false).messageQueue = [] := by
  refine ⟨fun s => ?_, by decide, by decide⟩
  unfold connectSuccess flushQueue
  have h := flush_fold_no_ready
    ({ s with ready := false, wsOpen := true } : WSState).messageQueue
    { s with ready := false, wsOpen := true } rfl
  exact ⟨h.1, rfl⟩

/-- C2: a 401/403 handshake failure is terminal.  After any run of retryable
failures, the attempt that hits HTTP status 401 or 403 makes `connect` return
at once with the terminal auth-failure result — exactly the attempts so far
were made, whatever outcomes the environment would have produced afterwards
are never consumed (same run with or without them), and this return path
never reaches `_listen`/`_websocket_closed`, the only place that schedules a
new connect task. -/
theorem auth_failure_is_terminal (maxAttempts : Int) (status : Nat)
    (pre post : List AttemptOutcome)
    (hstatus : status = 401 ∨ status = 403)
    (hpre : ∀ o ∈ pre, retryableOutcome o = true)
    (hmax : maxAttempts = -1 ∨ ((pre.length : Int) < maxAttempts)) :
    connect maxAttempts false false (pre ++ .handshakeError status :: post)
      = (pre.length + 1, .authFailure)
    ∧ connect maxAttempts false false (pre ++ .handshakeError status :: post)
      = connect maxAttempts false false (pre ++ [.handshakeError status]) := by
  have hmax0 : maxAttempts = -1 ∨ ((0 : Nat) : Int) + pre.length < maxAttempts := by
    rcases hmax with h | h
    · exact Or.inl h
    · right
      push_cast
      omega
  have h1 := connectLoop_auth_stop maxAttempts status hstatus pre hpre post 0 hmax0
  have h2 := connectLoop_auth_stop maxAttempts status hstatus pre hpre [] 0 hmax0
  unfold connect
  rw [if_neg (by simp)]
  rw [h1, h2]
  simp

/-- C2 witness: one connector-level failure, then a 403 handshake, with
unbounded retries configured and a success the environment would offer next:
the loop stops at attempt 2 with the terminal auth failure. -/
theorem auth_failure_is_terminal_witness :
    connect (-1) false false
        [.connectorError, .handshakeError 403, .connectionSuccess]
      = (2, .authFailure) :=
  (auth_failure_is_terminal (-1) 403 [.connectorError] [.connectionSuccess]
    (Or.inr rfl) (by decide) (Or.inl rfl)).1

/-- C6 is violated for unknown event types (code bug).  An unknown *op* is
logged at warning severity and dropped exactly as claimed (first conjunct,
for every probe state).  But a frame whose op is `event` with an unknown
event type, after the warning, is still passed to `handle_event` as the raw
dict; the attribute access `data.guildId` there raises `AttributeError`,
which propagates out of `handle_message` (second conjunct) — the read loop
then catches it and tears the whole connection down. -/
theorem unknown_event_type_escapes_handler :
    (∀ st : ProbeState, handle_message sampleDispatchEnv st
        { op := "unknownOp", eventType := "", guildId := 1, stateConnected := true }
      = .ok (st, [.logWarning "Received unknown op"]))
    ∧ handle_message sampleDispatchEnv probeInit
        { op := "event", eventType := "SponsorBlockSegmentEvent", guildId := 1,
          stateConnected := true }
      = .error .attributeError :=
  ⟨fun _ => rfl, by decide⟩

/-- C8: at every instant — that is, after every sequence of `playerUpdate`
frames processed against any player registry — at most one live reconnect
probe task (created by `handle_player_update` and never cancelled) exists per
guild id: `schedule_probe` cancels the task registered under the guild id
before registering the fresh replacement. -/
theorem at_most_one_live_probe_per_guild (env : DispatchEnv)
    (evs : List PlayerUpdate) (g : Int) :
    (liveProbes (runPlayerUpdates env evs probeInit) g).length ≤ 1 := by
  have hwf0 : ProbeWF probeInit := by
    refine ⟨?_, ?_, ?_, ?_⟩
    · intro p hp
      simp [probeInit] at hp
    · simp [probeInit]
    · intro gx tx hgx
      simp [probeInit, lookupTask] at hgx
    · intro p hp
      simp [probeInit] at hp
  exact liveProbes_length_le_one _ (probeWF_run env evs probeInit hwf0) g

/-! ## Claim theorems: the query classifier -/

/-- C4 is violated by the code (code bug).  Classifying
`"ytsearch:lofi beats"` does *not* yield a YouTube search query: the
`SOUND_CLOUD_REGEX` battery entry ends in an empty alternative (the trailing
`|` of query.py:69), so it matches every string, and since the YouTube,
Spotify and Apple Music patterns do not match, the classifier returns a
SoundCloud, non-search query whose canonical identifier is the raw string.
Even if the input reached the search-directive step, the `yt` prefix maps to
`"YouTube Music"` (query.py:344-345), not `"YouTube"` (last conjunct). -/
theorem ytsearch_misclassified :
    from_string_noawait "ytsearch:lofi beats" =
      Query.init "ytsearch:lofi beats" "SoundCloud" false 0 0 (some "single") false
    ∧ (from_string_noawait "ytsearch:lofi beats").source = "SoundCloud"
    ∧ (from_string_noawait "ytsearch:lofi beats").search = false
    ∧ (from_string_noawait "ytsearch:lofi beats").query_identifier = "ytsearch:lofi beats"
    ∧ reMatches SOUND_CLOUD_RE "ytsearch:lofi beats" = true
    ∧ process_search "ytsearch:lofi beats" =
        some (Query.init "lofi beats" "YouTube Music" true 0 0 none false) :=
  ⟨by decide, by decide, by decide, by decide, by decide, by decide⟩

/-- C9 counterexample: `with_index` on a recursive query does not preserve
the recursive flag — the constructor call in `with_index` (query.py:514-522)
passes every field except `recursive`, which falls back to the constructor
default `False`. -/
theorem with_index_drops_recursive_counterexample :
    (Query.init "/music/rock" "Local Files" false 0 0 (some "album") true).recursive = true
    ∧ ((Query.init "/music/rock" "Local Files" false 0 0 (some "album") true).with_index
        5).recursive = false :=
  ⟨rfl, rfl⟩

/-- C9 amended: for every Query `q` (with the always-true constructor
invariant that its type tag is non-empty — `__init__` stores
`query_type or "single"`) and every integer `i`, `q.with_index i` has index
`i`, equal query value, source, search flag, start time and type — but the
recursive flag is reset to `False` rather than copied. -/
theorem with_index_fields (q : Query) (i : Int) (htype : q.type ≠ "") :
    (q.with_index i).query = q.query
    ∧ (q.with_index i).source = q.source
    ∧ (q.with_index i).search = q.search
    ∧ (q.with_index i).start_time = q.start_time
    ∧ (q.with_index i).index = i
    ∧ (q.with_index i).type = q.type
    ∧ (q.with_index i).recursive = false := by
  unfold Query.with_index Query.init
  exact ⟨rfl, rfl, rfl, rfl, rfl, by simp [htype], rfl⟩

/-- C9 amended, witness: a concrete recursive album query copied with index
7. -/
theorem with_index_fields_witness :
    ((Query.init "/music/rock" "Local Files" false 0 0 (some "album") true).with_index 7).type
        = "album"
    ∧ ((Query.init "/music/rock" "Local Files" false 0 0 (some "album") true).with_index
        7).index = 7 := by
  have h := with_index_fields
    (Query.init "/music/rock" "Local Files" false 0 0 (some "album") true) 7 (by decide)
  exact ⟨h.2.2.2.2.2.1.trans (by decide), h.2.2.2.2.1⟩

end PyLav
